import Mathlib

/-
Verification of the PVFit ChannelFit forward-model code
(src/channelfit/_channelfit.py) against its natural-language
specification.  Python numerics are embedded shallowly over the
rationals; transcendental operations (square roots, powers of ten)
are passed as explicit function parameters, since every property
proved here depends only on signs, zero tests and branch structure,
never on the numerical value of those operations.
-/

/- ------------------------------------------------------------------
   C1: name-resolution model of ChannelFit.makegrid.

   The body of makegrid (lines 193-283 of _channelfit.py, on the path
   where a cube file is supplied) is transcribed as a straight-line
   sequence of statements, each recorded with the local names it
   assigns and the local names it reads.  Python raises
   UnboundLocalError as soon as a statement reads a local name that is
   assigned somewhere in the function but has not been assigned yet;
   attribute slots (written as "self.x" here) are recorded as targets
   so we can observe which ones are never reached.  Attribute reads
   and global/builtin reads never raise UnboundLocalError, so they are
   not recorded as reads.  Line 204, which would have defined xminor
   and xmajor, is commented out in the source and therefore absent.
   ------------------------------------------------------------------ -/

structure PyStmt where
  targets : List String
  reads : List String

/-- Local/attribute assignment trace of ChannelFit.makegrid
(lines 194-283), statement by statement, with the source line
recorded next to each entry. -/
def makegridStmts : List PyStmt := [
  ⟨["self.data", "self.x", "self.y", "self.v", "self.sigma"],
   ["cubefits", "center", "dist", "vsys", "rmax", "sigma", "xskip", "yskip"]⟩, -- 194-196
  ⟨["v"], []⟩,                                              -- 197  v = self.v
  ⟨["self.incl0"], ["incl"]⟩,                               -- 198
  ⟨[], ["incl"]⟩,                                           -- 199  self.update_incl(incl)
  ⟨["pa_rad"], ["pa"]⟩,                                     -- 200
  ⟨["self.pa_rad"], ["pa_rad"]⟩,                            -- 201
  ⟨["self.cospa"], ["pa_rad"]⟩,                             -- 202
  ⟨["self.sinpa"], ["pa_rad"]⟩,                             -- 203
  ⟨["self.X", "self.Y"], []⟩,                               -- 205 (204 is commented out)
  ⟨["self.v_nanblue"], ["v", "vlim"]⟩,                      -- 207
  ⟨["self.v_blue"], ["v", "vlim"]⟩,                         -- 208
  ⟨["self.v_nanmid"], ["v", "vlim"]⟩,                       -- 209
  ⟨["self.v_red"], ["v", "vlim"]⟩,                          -- 210
  ⟨["self.v_nanred"], ["v", "vlim"]⟩,                       -- 211
  ⟨["self.v_valid0"], []⟩,                                  -- 212
  ⟨["self.v_valid1"], []⟩,                                  -- 213
  ⟨["self.data_blue"], ["vlim", "v"]⟩,                      -- 215
  ⟨["self.data_red"], ["vlim", "v"]⟩,                       -- 216
  ⟨["self.data_valid0"], []⟩,                               -- 217
  ⟨["self.data_valid1"], []⟩,                               -- 218
  ⟨["m"], ["sigma"]⟩,                                       -- 221  m = makemom01(...)
  ⟨["self.mom0"], ["m"]⟩,                                   -- 222
  ⟨["self.mom1"], ["m"]⟩,                                   -- 223
  ⟨["self.mom2"], ["m"]⟩,                                   -- 224
  ⟨["self.sigma_mom0"], ["m"]⟩,                             -- 225
  ⟨["xminor", "xmajor"], ["xminor", "xmajor", "pa_rad"]⟩,   -- 226  rot(xminor, xmajor, pa_rad)
  ⟨["self.signmajor"], ["xmajor"]⟩,                         -- 227
  ⟨["self.signminor"], ["xminor"]⟩,                         -- 228
  ⟨["dpix"], []⟩,                                           -- 232
  ⟨["i", "j"], ["dpix"]⟩,                                   -- 233
  ⟨[], ["i", "j"]⟩,                                         -- 234  print
  ⟨["r_need"], ["rmax"]⟩,                                   -- 236
  ⟨["npix"], ["r_need", "dpix"]⟩,                           -- 237
  ⟨["npixnest"], ["npix"]⟩,                                 -- 238
  ⟨["self.nq1"], ["npixnest"]⟩,                             -- 239
  ⟨["self.nq3"], ["npixnest"]⟩,                             -- 240
  ⟨["self.nlayer"], ["nlayer"]⟩,                            -- 241
  ⟨["xnest"], ["nlayer"]⟩,                                  -- 242
  ⟨["ynest"], ["nlayer"]⟩,                                  -- 243
  ⟨["Xnest"], ["nlayer"]⟩,                                  -- 244
  ⟨["Ynest"], ["nlayer"]⟩,                                  -- 245
  ⟨["Rnest"], ["nlayer"]⟩,                                  -- 246
  ⟨["l", "n", "s", "X", "Y", "R"],
   ["nlayer", "npixnest", "dpix", "xnest", "ynest", "Xnest", "Ynest", "Rnest"]⟩, -- 247-256
  ⟨["self.xnest"], ["xnest"]⟩,                              -- 257
  ⟨["self.ynest"], ["ynest"]⟩,                              -- 258
  ⟨["self.Xnest"], ["Xnest"]⟩,                              -- 259
  ⟨["self.Ynest"], ["Ynest"]⟩,                              -- 260
  ⟨["self.Xnest", "self.Ynest"], ["pa_rad"]⟩,               -- 261
  ⟨["l"], ["xnest", "npixnest"]⟩,                           -- 262-267  print loop
  ⟨["ngauss"], ["dpix"]⟩,                                   -- 269
  ⟨["xb"], ["ngauss", "dpix"]⟩,                             -- 270
  ⟨["yb"], ["ngauss", "dpix"]⟩,                             -- 271
  ⟨["bpa_on_disk"], []⟩,                                    -- 273
  ⟨["xb", "yb"], ["xb", "yb", "bpa_on_disk"]⟩,              -- 274
  ⟨["gaussbeam"], ["yb", "xb"]⟩,                            -- 275
  ⟨["self.pixperbeam"], ["gaussbeam"]⟩,                     -- 276
  ⟨["self.gaussbeam"], ["gaussbeam"]⟩,                      -- 277
  ⟨["n_need"], ["r_need", "dpix"]⟩,                         -- 279
  ⟨["self.ineed0"], ["npixnest", "n_need"]⟩,                -- 280
  ⟨["self.ineed1"], ["npixnest", "n_need"]⟩,                -- 281
  ⟨["self.xneed"], []⟩,                                     -- 282
  ⟨["self.yneed"], []⟩]                                     -- 283

/-- Parameters of makegrid, bound on entry. -/
def makegridParams : List String :=
  ["cubefits", "pa", "incl", "dist", "center", "vsys", "rmax", "vlim",
   "sigma", "nlayer", "xskip", "yskip"]

/-- Run a straight-line statement list.  Execution stops at the first
statement that reads a name not yet bound, returning that name
(Python raises UnboundLocalError there); the second component is the
set of names that were actually assigned before execution stopped. -/
def runStmts : List PyStmt → List String → Option String × List String
  | [], env => (none, env)
  | s :: rest, env =>
    match s.reads.find? (fun r => ! env.contains r) with
    | some r => (some r, env)
    | none => runStmts rest (env ++ s.targets)

/-- C1: on every call of makegrid (with a cube supplied), execution
reaches line 226, which reads the local names xminor and xmajor before
either has been assigned (their defining line 204 is commented out),
so makegrid stops with an unbound-name error on xminor; the nested
grid, the beam kernel and the polarity signs are never assigned, so
grid setup never completes. -/
theorem c1_makegrid_unbound_xminor :
    (runStmts makegridStmts makegridParams).1 = some "xminor" ∧
    ((runStmts makegridStmts makegridParams).2.contains "self.xnest" = false) ∧
    ((runStmts makegridStmts makegridParams).2.contains "self.Xnest" = false) ∧
    ((runStmts makegridStmts makegridParams).2.contains "self.gaussbeam" = false) ∧
    ((runStmts makegridStmts makegridParams).2.contains "self.signmajor" = false) ∧
    ((runStmts makegridStmts makegridParams).2.contains "self.signminor" = false) := by
  decide

/- ------------------------------------------------------------------
   C2: makemom01 (lines 60-70).

   The source computes dmasked = np.nan_to_num(d) (a copy of the cube),
   zeroes every entry of dmasked below 3*sigma, but then computes
   mom1 = np.sum(d * vv, axis=0) / np.sum(d, axis=0) from the ORIGINAL
   cube d: the thresholded copy dmasked is never read again, so the
   3-sigma zeroing has no effect on moment 1.  Below, mom1OfCode is
   the faithful transcription of the source (one pixel column at a
   time, over exact rationals, with NaN-free input data), and
   mom1OfClaim follows the words of the claim, in which every
   intensity below 3*sigma is zeroed before both sums.  The square
   root of the channel count, used only for sigma_mom0, is passed as
   a function parameter.
   ------------------------------------------------------------------ -/

/-- Smallest element of a list of rationals (np.min); 0 on []. -/
def listMin : List ℚ → ℚ
  | [] => 0
  | a :: t => t.foldr min a

/-- Largest element of a list of rationals (np.max); 0 on []. -/
def listMax : List ℚ → ℚ
  | [] => 0
  | a :: t => t.foldr max a

/-- dv = np.min(v[1:] - v[:-1]) of makemom01 line 62. -/
def dvOf (v : List ℚ) : ℚ := listMin (List.zipWith (fun a b => a - b) v.tail v)

/-- Column of a channels-by-pixels cube at pixel p. -/
def colAt (d : List (List ℚ)) (p : ℕ) : List ℚ := d.map (fun row => row.getD p 0)

/-- mom0 at pixel p: np.sum(d, axis=0) * dv (line 63). -/
def mom0At (d : List (List ℚ)) (v : List ℚ) (p : ℕ) : ℚ := (colAt d p).sum * dvOf v

/-- sigma_mom0 = sigma * dv * np.sqrt(len(d)) (line 64); the square
root of the channel count is supplied by the sqrt parameter. -/
def sigmaMom0 (sqrtQ : ℚ → ℚ) (d : List (List ℚ)) (v : List ℚ) (sigma : ℚ) : ℚ :=
  sigma * dvOf v * sqrtQ (d.length : ℚ)

/-- mom1 at pixel p exactly as the source computes it (lines 61-69):
the sums run over the original cube d (the thresholded copy dmasked of
line 66 is never used), the quotient is NaN (none) when the
denominator is zero, and the result is masked to none wherever
mom0 < 3 * sigma_mom0. -/
def mom1OfCode (sqrtQ : ℚ → ℚ) (d : List (List ℚ)) (v : List ℚ) (sigma : ℚ)
    (p : ℕ) : Option ℚ :=
  let num := (List.zipWith (fun row vc => row.getD p 0 * vc) d v).sum
  let den := (colAt d p).sum
  let q : Option ℚ := if den = 0 then none else some (num / den)
  if mom0At d v p < 3 * sigmaMom0 sqrtQ d v sigma then none else q

/-- mom1 at pixel p as the claim describes it: every intensity below
3*sigma is zeroed before both sums, then the same mom0 mask is
applied.  This definition follows the claim text, for comparison with
mom1OfCode. -/
def mom1OfClaim (sqrtQ : ℚ → ℚ) (d : List (List ℚ)) (v : List ℚ) (sigma : ℚ)
    (p : ℕ) : Option ℚ :=
  let dth := d.map (fun row => row.map (fun x => if x < 3 * sigma then 0 else x))
  let num := (List.zipWith (fun row vc => row.getD p 0 * vc) dth v).sum
  let den := (colAt dth p).sum
  let q : Option ℚ := if den = 0 then none else some (num / den)
  if mom0At d v p < 3 * sigmaMom0 sqrtQ d v sigma then none else q

/-- Concrete square root oracle for the 4-channel cube used in the C2
evaluation: only sqrt 4 = 2 is ever consulted. -/
def sqrtC2 : ℚ → ℚ := fun q => if q = 4 then 2 else 0

/-- Failing input for C2: four channels, one pixel, noise sigma = 1,
so the threshold is 3; the intensity 1 in channel 1 lies below it. -/
def dC2 : List (List ℚ) := [[10], [1], [0], [0]]

/-- Velocity axis for the C2 failing input. -/
def vC2 : List ℚ := [0, 1, 2, 3]

/-- C2: the code does not zero sub-threshold intensity before the
moment-1 sums.  On the cube dC2 with sigma = 1 the code returns
mom1 = (10*0 + 1*1)/(10 + 1) = 1/11, because the sub-threshold
intensity 1 < 3*sigma enters both sums (the thresholded copy dmasked
is computed but never used); the claim says that value is zeroed
first, which would give mom1 = 0.  The mom0 mask itself behaves as
claimed: mom0 = 11 is above 3*sigma_mom0 = 6, so the pixel is not
masked. -/
theorem c2_mom1_threshold_dead_code :
    mom1OfCode sqrtC2 dC2 vC2 1 0 = some (1 / 11) ∧
    mom1OfClaim sqrtC2 dC2 vC2 1 0 = some 0 ∧
    mom1OfCode sqrtC2 dC2 vC2 1 0 ≠ mom1OfClaim sqrtC2 dC2 vC2 1 0 := by
  refine ⟨?_, ?_, ?_⟩ <;>
    norm_num [mom1OfCode, mom1OfClaim, dC2, vC2, colAt, mom0At, dvOf, sigmaMom0,
      sqrtC2, listMin]

/- ------------------------------------------------------------------
   C3: the getvlos closure built by ChannelFit.update_getvlos
   (lines 338-356), one grid cell at a time.

   A cell of a disk-surface solution is either a number x (the
   height-corrected minor-axis coordinate) or NaN (no surface solution
   there), modelled as Option; a surface that is absent altogether
   (x_in is None in the source) contributes no cells at all, so the
   per-cell meaning is the same none.  NaN propagates through np.hypot
   and the arithmetic, and a NaN never satisfies the masks r < Rin,
   r > Rc, which is exactly the behaviour of the match on none below.
   The square root is again a function parameter: which cells end up
   as NaN depends only on the branch structure, never on its values.
   ------------------------------------------------------------------ -/

/-- One cell of the vlos array built by getvlos (lines 339-355).
y is the cell of self.Ynest, x_in the matching cell of the
height-corrected coordinate array (none = NaN, no surface solution).
vp, vr, erot, erad, vlos follow lines 343-351; the masks of lines
352-354 then turn r < Rin cells, and r > Rc cells when the envelope
is disabled, into NaN. -/
def getvlosCell (sqrtQ : ℚ → ℚ) (envelope : Bool) (Rc Rin signmajor signminor sini vunit : ℚ)
    (y : ℚ) (x_in : Option ℚ) : Option ℚ :=
  match x_in with
  | none => none
  | some x =>
    let r := sqrtQ (x * x + y * y)
    let vp := if envelope && decide (Rc < r) then sqrtQ Rc / r else 1 / sqrtQ r
    let vr := if envelope && decide (Rc < r) then -(1 / sqrtQ r) * sqrtQ (2 - Rc / r) else 0
    let erot := y * signmajor / r
    let erad := x * signminor / r
    let vlos := (vp * erot + vr * erad) * sini * vunit
    if decide (r < Rin) then none
    else if (!envelope) && decide (Rc < r) then none
    else some vlos

/-- C3: a cell of the line-of-sight velocity field is the no-value
sentinel exactly when the cell has no surface solution, or r < Rin,
or the envelope is disabled and r > Rc; every other cell carries an
actual (finite) rational value, and no-value is never represented as
the number zero.  The hypotheses record the domain on which the exact
model coincides with the floating-point source: grid cells never sit
at the origin (the nested axes consist of half-integer multiples of
the pitch), the square root of a positive number is positive (so r > 0
and no division produces an infinity), and the transition radius is
nonnegative (so sqrt(Rc) and sqrt(2 - Rc/r) are real). -/
theorem c3_getvlos_no_value_iff
    (sqrtQ : ℚ → ℚ) (envelope : Bool) (Rc Rin signmajor signminor sini vunit y : ℚ)
    (x_in : Option ℚ)
    (hsqrt : ∀ q : ℚ, 0 < q → 0 < sqrtQ q)
    (hRc : 0 ≤ Rc)
    (hcell : ∀ x : ℚ, x_in = some x → 0 < x * x + y * y) :
    (getvlosCell sqrtQ envelope Rc Rin signmajor signminor sini vunit y x_in = none ↔
      (x_in = none ∨ ∃ x, x_in = some x ∧
        (sqrtQ (x * x + y * y) < Rin ∨ (envelope = false ∧ Rc < sqrtQ (x * x + y * y))))) ∧
    (∀ x : ℚ, x_in = some x →
      ¬ sqrtQ (x * x + y * y) < Rin →
      ¬ (envelope = false ∧ Rc < sqrtQ (x * x + y * y)) →
      ∃ w : ℚ, getvlosCell sqrtQ envelope Rc Rin signmajor signminor sini vunit y x_in = some w) := by
  constructor
  · cases x_in with
    | none => simp [getvlosCell]
    | some x =>
      simp only [getvlosCell, Option.some.injEq, reduceCtorEq, false_or]
      constructor
      · intro h
        by_cases h1 : sqrtQ (x * x + y * y) < Rin
        · exact ⟨x, rfl, Or.inl h1⟩
        · by_cases h2 : ((!envelope) && decide (Rc < sqrtQ (x * x + y * y))) = true
          · simp only [Bool.and_eq_true, Bool.not_eq_true', decide_eq_true_eq] at h2
            exact ⟨x, rfl, Or.inr ⟨h2.1, h2.2⟩⟩
          · simp [h1, h2] at h
      · rintro ⟨x', hx', h⟩
        obtain rfl : x = x' := by simpa using hx'
        rcases h with h1 | ⟨he, h2⟩
        · simp [h1]
        · simp [he, h2]
  · intro x hx h1 h2
    subst hx
    have hb : ((!envelope) && decide (Rc < sqrtQ (x * x + y * y))) = false := by
      cases envelope with
      | true => simp
      | false =>
        simp only [Bool.not_false, Bool.true_and, decide_eq_false_iff_not]
        intro hlt
        exact h2 ⟨rfl, hlt⟩
    simp only [getvlosCell]
    rw [if_neg (by simpa using h1), if_neg (by simp [hb])]
    exact ⟨_, rfl⟩

/-- Square root oracle for the C3 witness cell: sqrt 25 = 5 is the
only value the no-value test consults. -/
def sqrtC3 : ℚ → ℚ := fun q => if q = 25 then 5 else 1

/-- Witness for C3 at a concrete cell: envelope enabled, cell
(x, y) = (3, 4), inner radius Rin = 1, transition radius Rc = 2,
r = 5: the cell is inside neither mask and getvlos returns an actual
value. -/
theorem c3_getvlos_no_value_iff_witness :
    ∃ w : ℚ, getvlosCell sqrtC3 true 2 1 1 (-1) 1 1 4 (some 3) = some w := by
  refine (c3_getvlos_no_value_iff sqrtC3 true 2 1 1 (-1) 1 1 4 (some 3) ?_ ?_ ?_).2 3 rfl ?_ ?_
  · intro q hq
    unfold sqrtC3
    split <;> norm_num
  · norm_num
  · intro x hx
    obtain rfl : x = 3 := by simpa using hx.symm
    norm_num
  · unfold sqrtC3
    norm_num
  · rintro ⟨h, -⟩
    cases h

/- ------------------------------------------------------------------
   C4: ChannelFit.get_scale (lines 390-408).

   gf and ff are the numerator and denominator of the selected
   policy; line 404 computes scale = gf / ff and line 405 forces
   scale to 0 wherever ff == 0 or scale < 0 — maskScale below.  In
   IEEE arithmetic gf / 0 is an infinity or NaN, but every such entry
   is exactly the ff == 0 case and is overwritten with 0, so the
   rational model (where division by zero gives the junk value 0,
   also overwritten with 0) agrees with the source on the returned
   scale.  Policies follow lines 391-403: chi2 and peak are per
   channel, mom0 is per pixel, uniform broadcasts one global ratio to
   every channel.
   ------------------------------------------------------------------ -/

/-- Lines 404-405: the quotient gf / ff with zero forced wherever the
denominator is zero or the quotient is negative. -/
def maskScale (gf ff : ℚ) : ℚ := if ff = 0 ∨ gf / ff < 0 then 0 else gf / ff

/-- Elementwise product sum of two equally long lists (np.sum(a * b)). -/
def dot2 (a b : List ℚ) : ℚ := (List.zipWith (fun x y => x * y) a b).sum

/-- Per-channel scale under the chi2 policy (lines 391-393):
gf = sum(Iout * data), ff = sum(Iout * Iout) over channel c. -/
def scaleChi2 (Iout data : List (List ℚ)) (c : ℕ) : ℚ :=
  maskScale (dot2 (Iout.getD c []) (data.getD c [])) (dot2 (Iout.getD c []) (Iout.getD c []))

/-- Per-channel scale under the peak policy (lines 394-396):
gf = max(data), ff = max(Iout) over channel c. -/
def scalePeak (Iout data : List (List ℚ)) (c : ℕ) : ℚ :=
  maskScale (listMax (data.getD c [])) (listMax (Iout.getD c []))

/-- Per-pixel scale under the mom0 policy (lines 397-400):
gf = observed mom0 zeroed below 3 * sigma_mom0, ff = channel sum of
the model at that pixel times dv. -/
def scaleMom0 (Iout : List (List ℚ)) (mom0 : List ℚ) (sigma_mom0 dv : ℚ) (p : ℕ) : ℚ :=
  maskScale (if mom0.getD p 0 < 3 * sigma_mom0 then 0 else mom0.getD p 0)
    ((colAt Iout p).sum * dv)

/-- Whole-cube product sum, channel rows paired up (np.sum(a * b)). -/
def totdot (a b : List (List ℚ)) : ℚ := (List.zipWith dot2 a b).sum

/-- Per-channel scale under the uniform policy (lines 401-403): one
global ratio, the same at every channel position c. -/
def scaleUniform (Iout data : List (List ℚ)) (_c : ℕ) : ℚ :=
  maskScale (totdot Iout data) (totdot Iout Iout)

/-- Model cube for the C4 counterexample: channel 0 is identically
zero, channel 1 is not. -/
def IoutC4 : List (List ℚ) := [[0], [1]]

/-- Observed cube for the C4 counterexample. -/
def dataC4 : List (List ℚ) := [[1], [1]]

/-- C4 counterexample: under the uniform policy the returned scale is
one global ratio, so at channel 0 — whose model channel is
identically zero — the scale is 1, not 0: the claim that the scale is
exactly 0 wherever the model channel is identically 0 fails for the
uniform policy. -/
theorem c4_uniform_zero_channel_counterexample :
    IoutC4.getD 0 [] = [0] ∧ scaleUniform IoutC4 dataC4 0 = 1 := by
  constructor
  · rfl
  · norm_num [scaleUniform, totdot, dot2, maskScale, IoutC4, dataC4]

/-- All-zero lists have product sum zero with themselves. -/
theorem dot2_self_eq_zero (l : List ℚ) (h : ∀ x ∈ l, x = 0) : dot2 l l = 0 := by
  induction l with
  | nil => rfl
  | cons a t ih =>
    have ha : a = 0 := h a (by simp)
    have ht := ih (fun x hx => h x (by simp [hx]))
    simp [dot2, List.zipWith_cons_cons, ha]
    simpa [dot2] using ht

/-- Folding max over an all-zero list from a zero seed gives zero. -/
theorem foldrMax_eq_zero (l : List ℚ) (a : ℚ) (h : ∀ x ∈ l, x = 0) (ha : a = 0) :
    l.foldr max a = 0 := by
  induction l with
  | nil => simpa
  | cons b t ih =>
    have hb : b = 0 := h b (by simp)
    have ht := ih (fun x hx => h x (by simp [hx]))
    simp [hb, ht]

/-- listMax of an all-zero list is zero. -/
theorem listMax_eq_zero (l : List ℚ) (h : ∀ x ∈ l, x = 0) : listMax l = 0 := by
  cases l with
  | nil => rfl
  | cons a t =>
    exact foldrMax_eq_zero t a (fun x hx => h x (by simp [hx])) (h a (by simp))

/-- C4 amended: for every policy the returned scale is 0 wherever that
policy's own denominator is 0 or the computed quotient is negative,
and a negative scale (or, in the rational model, a NaN escaping
through an unmasked division) is never returned; a model channel that
is identically 0 forces a zero scale at that channel for the
per-channel chi2 and peak policies, and a pixel at which the model is
zero in every channel forces a zero scale at that pixel for the mom0
policy — but not for the uniform policy, whose single global ratio is
zero only when its global denominator is zero or the global ratio is
negative. -/
theorem c4_scale_zero_amended :
    (∀ gf ff : ℚ, (ff = 0 ∨ gf / ff < 0) → maskScale gf ff = 0) ∧
    (∀ gf ff : ℚ, 0 ≤ maskScale gf ff) ∧
    (∀ Iout data : List (List ℚ), ∀ c : ℕ,
      (∀ x ∈ Iout.getD c [], x = 0) →
        scaleChi2 Iout data c = 0 ∧ scalePeak Iout data c = 0) ∧
    (∀ Iout : List (List ℚ), ∀ mom0 : List ℚ, ∀ s dv : ℚ, ∀ p : ℕ,
      (∀ row ∈ Iout, row.getD p 0 = 0) → scaleMom0 Iout mom0 s dv p = 0) ∧
    (∀ Iout data : List (List ℚ), ∀ c : ℕ,
      totdot Iout Iout = 0 → scaleUniform Iout data c = 0) := by
  have hmask : ∀ gf ff : ℚ, (ff = 0 ∨ gf / ff < 0) → maskScale gf ff = 0 := by
    intro gf ff h
    simp [maskScale, h]
  refine ⟨hmask, ?_, ?_, ?_, ?_⟩
  · intro gf ff
    unfold maskScale
    split
    · exact le_refl 0
    · rename_i h
      rw [not_or] at h
      exact not_lt.mp h.2
  · intro Iout data c h
    constructor
    · exact hmask _ _ (Or.inl (dot2_self_eq_zero _ h))
    · exact hmask _ _ (Or.inl (listMax_eq_zero _ h))
  · intro Iout mom0 s dv p h
    refine hmask _ _ (Or.inl ?_)
    have : (colAt Iout p).sum = 0 := by
      refine List.sum_eq_zero ?_
      intro x hx
      rcases List.mem_map.mp hx with ⟨row, hrow, rfl⟩
      exact h row hrow
    rw [this, zero_mul]
  · intro Iout data c h
    exact hmask _ _ (Or.inl h)

/-- Witness for C4 amended at concrete inputs: a zero model channel
forces scale 0 under chi2 and peak, a zero model pixel column forces
scale 0 under mom0, a zero global denominator forces scale 0 under
uniform, and a zero denominator forces maskScale to 0. -/
theorem c4_scale_zero_amended_witness :
    scaleChi2 [[0]] [[5]] 0 = 0 ∧ scalePeak [[0]] [[5]] 0 = 0 ∧
    scaleMom0 [[0]] [7] 1 1 0 = 0 ∧ scaleUniform [[0]] [[5]] 0 = 0 ∧
    maskScale 3 0 = 0 := by
  refine ⟨(c4_scale_zero_amended.2.2.1 [[0]] [[5]] 0 ?_).1,
          (c4_scale_zero_amended.2.2.1 [[0]] [[5]] 0 ?_).2,
          c4_scale_zero_amended.2.2.2.1 [[0]] [7] 1 1 0 ?_,
          c4_scale_zero_amended.2.2.2.2 [[0]] [[5]] 0 ?_,
          c4_scale_zero_amended.1 3 0 (Or.inl rfl)⟩
  · simp
  · simp
  · simp
  · simp [totdot, dot2]

/- ------------------------------------------------------------------
   C5: ChannelFit.update_xdisk (lines 291-319), one grid cell at a
   time, for one candidate flare ratio hdisk.

   Each of the two corrected-x branches of one surface is
   Option (Option Q): the outer none means the whole branch is the
   Python value None (no array at all), the inner none means the cell
   holds NaN.  The quadratic coefficients a, b, c and the discriminant
   D = b^2 - a*c follow lines 302-305 and 312; the square root of a
   nonnegative discriminant is a function parameter.
   ------------------------------------------------------------------ -/

/-- Leading quadratic coefficient a = tan(i)^(-2) - hdisk^2 (line 302). -/
def xdiskA (tani hdisk : ℚ) : ℚ := tani ^ (-2 : ℤ) - hdisk ^ 2

/-- Coefficient b = (1 + hdisk^2) * X * cos(i) (line 303). -/
def xdiskB (cosi hdisk X : ℚ) : ℚ := (1 + hdisk ^ 2) * (X * cosi)

/-- Coefficient c = (tan(i)^2 - hdisk^2) * (X cos i)^2 - hdisk^2 * Y^2
(lines 304-305). -/
def xdiskC (cosi tani hdisk X Y : ℚ) : ℚ :=
  (tani ^ 2 - hdisk ^ 2) * (X * cosi) ^ 2 - hdisk ^ 2 * Y ^ 2

/-- Discriminant D = b^2 - a*c (line 312). -/
def xdiskD (cosi tani hdisk X Y : ℚ) : ℚ :=
  (xdiskB cosi hdisk X) ^ 2 - xdiskA tani hdisk * xdiskC cosi tani hdisk X Y

/-- One cell of the pair of corrected-x branches built by update_xdisk
for one flare ratio (lines 293-318): surface disabled for hdisk < 0,
razor-thin midplane for hdisk < 0.01, otherwise the quadratic solve
with the near-degenerate linearized branch when |a| < 1e-3 and
NaN cells wherever the discriminant is negative. -/
def xdiskCell (sqrtQ : ℚ → ℚ) (cosi tani hdisk X Y : ℚ) :
    Option (Option ℚ) × Option (Option ℚ) :=
  if hdisk < 0 then (none, none)
  else if hdisk < 1 / 100 then (some (some (X / cosi)), some (some (X / cosi)))
  else
    let Xcosi := X * cosi
    let a := xdiskA tani hdisk
    let b := xdiskB cosi hdisk X
    let c := xdiskC cosi tani hdisk X Y
    if -(1 / 1000) < a ∧ a < 1 / 1000 then
      (some (some (Xcosi + c / b / 2)), none)
    else
      let D := xdiskD cosi tani hdisk X Y
      if 0 ≤ D then
        (some (some (Xcosi + (b + sqrtQ D) / a)), some (some (Xcosi + (b - sqrtQ D) / a)))
      else (some none, some none)

/-- C5: for a flare ratio hdisk of at least 0.01, when |a| is at least
1e-3 every cell with negative discriminant is left as the no-value
sentinel in both corrected-x branches (no failure is raised: xdiskCell
is total), and when |a| < 1e-3 the single linearized solution
X cos i + c/(2b) is used — an expression with no division by a — and
the second branch is absent altogether. -/
theorem c5_xdisk_discriminant_and_linear
    (sqrtQ : ℚ → ℚ) (cosi tani hdisk X Y : ℚ) (hh : 1 / 100 ≤ hdisk) :
    ((-(1 / 1000) < xdiskA tani hdisk ∧ xdiskA tani hdisk < 1 / 1000) →
      xdiskCell sqrtQ cosi tani hdisk X Y =
        (some (some (X * cosi + xdiskC cosi tani hdisk X Y / xdiskB cosi hdisk X / 2)),
         none)) ∧
    (¬ (-(1 / 1000) < xdiskA tani hdisk ∧ xdiskA tani hdisk < 1 / 1000) →
      xdiskD cosi tani hdisk X Y < 0 →
      xdiskCell sqrtQ cosi tani hdisk X Y = (some none, some none)) := by
  have h0 : ¬ hdisk < 0 := not_lt.mpr (le_trans (by norm_num) hh)
  have h1 : ¬ hdisk < 1 / 100 := not_lt.mpr hh
  constructor
  · intro hA
    simp only [xdiskCell, if_neg h0, if_neg h1, if_pos hA]
  · intro hA hD
    simp only [xdiskCell, if_neg h0, if_neg h1, if_neg hA, if_neg (not_le.mpr hD)]

/-- Witness for C5 at two concrete cells: with tani = 1/10 and
hdisk = 10 the leading coefficient a is exactly 0 (near-degenerate),
so the linearized branch fires and the second branch is absent; with
tani = 2, hdisk = 1 at cell (X, Y) = (0, 1) the coefficient
a = -3/4 is not near zero and the discriminant is -3/4 < 0, so both
branches hold the no-value sentinel. -/
theorem c5_xdisk_discriminant_and_linear_witness :
    xdiskCell (fun _ => 0) (1 / 2) (1 / 10) 10 1 0 =
      (some (some (1 * (1 / 2) + xdiskC (1 / 2) (1 / 10) 10 1 0 / xdiskB (1 / 2) 10 1 / 2)),
       none) ∧
    xdiskCell (fun _ => 0) (1 / 2) 2 1 0 1 = (some none, some none) := by
  constructor
  · exact (c5_xdisk_discriminant_and_linear (fun _ => 0) (1 / 2) (1 / 10) 10 1 0
      (by norm_num)).1 (by norm_num [xdiskA])
  · exact (c5_xdisk_discriminant_and_linear (fun _ => 0) (1 / 2) 2 1 0 1
      (by norm_num)).2 (by norm_num [xdiskA]) (by norm_num [xdiskD, xdiskA, xdiskB, xdiskC])

/- ------------------------------------------------------------------
   C6 and C7: the nested grid built by makegrid (lines 230-283).

   Line 249 builds the layer-l axis s = linspace(-n, n, npixnest) *
   dpix / 2**l with n = npixnest//2 - 0.5, so for the (power-of-two,
   even) grid sizes produced by line 238 the k-th coordinate is
   (k - (npixnest-1)/2) * dpix / 2**l: layer 0 is the COARSEST layer
   (pitch dpix) and every deeper layer halves both the pitch and the
   physical extent, all layers sharing the center 0.  npix and
   npixnest follow lines 236-238, n_need and the crop indices lines
   279-283; Python int() truncates toward zero, modelled by truncQ.
   ------------------------------------------------------------------ -/

/-- Python int() / np.ndarray.astype(int): truncation toward zero. -/
def truncQ (q : ℚ) : ℤ := if q < 0 then -⌊-q⌋ else ⌊q⌋

/-- r_need = rmax + bmaj * 1.1 (line 236). -/
def rneedOf (rmax bmaj : ℚ) : ℚ := rmax + bmaj * (11 / 10)

/-- npix = int(2 * r_need / dpix + 0.5) (line 237). -/
def npixOf (rmax bmaj dpix : ℚ) : ℤ := truncQ (2 * rneedOf rmax bmaj / dpix + 1 / 2)

/-- Smallest k with n <= 2^k (np.ceil(np.log2(n)) for n >= 1). -/
def ceilLog2 (n : ℕ) : ℕ :=
  ((List.range (n + 1)).find? (fun k => decide (n ≤ 2 ^ k))).getD 0

/-- npixnest = int(2**np.ceil(np.log2(npix))) (line 238). -/
def npixnestOf (rmax bmaj dpix : ℚ) : ℕ :=
  2 ^ ceilLog2 (npixOf rmax bmaj dpix).toNat

/-- Coordinate k of the layer-l nested axis (line 249), index taken in
ZZ so crop indices can be discussed directly; the actual array is the
restriction to 0 <= k < npixnest. -/
def xnestVal (npixnest : ℕ) (dpix : ℚ) (l : ℕ) (k : ℤ) : ℚ :=
  ((k : ℚ) - ((npixnest : ℚ) - 1) / 2) * dpix / 2 ^ l

/-- n_need = int(r_need / dpix + 0.5) (line 279). -/
def nneedOf (rmax bmaj dpix : ℚ) : ℤ := truncQ (rneedOf rmax bmaj / dpix + 1 / 2)

/-- ineed0 = npixnest // 2 - n_need (line 280). -/
def ineed0Of (rmax bmaj dpix : ℚ) : ℤ :=
  ((npixnestOf rmax bmaj dpix / 2 : ℕ) : ℤ) - nneedOf rmax bmaj dpix

/-- ineed1 = npixnest // 2 + n_need (line 281). -/
def ineed1Of (rmax bmaj dpix : ℚ) : ℤ :=
  ((npixnestOf rmax bmaj dpix / 2 : ℕ) : ℤ) + nneedOf rmax bmaj dpix

/-- C6 counterexample: with rmax = 10, bmaj = 0, dpix = 1 (so
npixnest = 32), the first coordinate of layer 0 is -31/2 while the
first coordinate of layer 1 is -31/4: the layers do NOT cover the
same physical footprint. -/
theorem c6_footprint_counterexample :
    npixnestOf 10 0 1 = 32 ∧
    xnestVal (npixnestOf 10 0 1) 1 0 0 ≠ xnestVal (npixnestOf 10 0 1) 1 1 0 := by
  have hnp : npixOf 10 0 1 = 20 := by norm_num [npixOf, rneedOf, truncQ]
  have h32 : npixnestOf 10 0 1 = 32 := by
    unfold npixnestOf
    rw [hnp]
    decide
  refine ⟨h32, ?_⟩
  rw [h32]
  norm_num [xnestVal]

/-- For n at least 2 the first k with n <= 2^k is nonzero. -/
theorem ceilLog2_pos (n : ℕ) (hn : 2 ≤ n) : ceilLog2 n ≠ 0 := by
  unfold ceilLog2
  rcases hfind : (List.range (n + 1)).find? (fun k => decide (n ≤ 2 ^ k)) with _ | k
  · have hall := List.find?_eq_none.mp hfind n (List.mem_range.mpr (Nat.lt_succ_self n))
    simp only [decide_eq_true_eq] at hall
    exact absurd (Nat.le_of_lt (Nat.lt_two_pow n)) hall
  · have hk := List.find?_some hfind
    simp only [decide_eq_true_eq] at hk
    simp only [Option.getD_some]
    intro h0
    subst h0
    simp only [pow_zero] at hk
    omega

/-- The grid size of line 238 is even whenever npix is at least 2. -/
theorem two_dvd_npixnest (rmax bmaj dpix : ℚ)
    (h : 2 ≤ (npixOf rmax bmaj dpix).toNat) :
    2 ∣ npixnestOf rmax bmaj dpix := by
  unfold npixnestOf
  exact dvd_pow_self 2 (ceilLog2_pos _ h)

/-- C6 amended: the nested layers are co-centered but do NOT share a
footprint — every coordinate of layer l+1 (and in particular its
extent) is exactly half the matching coordinate of layer l, layer 0
being the coarsest and largest; each axis is symmetric about the
physical origin; and the crop index range (ineed0, ineed1) lies in
layer 0 (the coarsest layer), is centered, with half-width
(n_need - 1/2) * dpix where n_need is derived from
r_need = rmax + 1.1 * bmaj, the requested half-width PLUS the beam
padding. -/
theorem c6_grid_amended (rmax bmaj dpix : ℚ)
    (hnp : 2 ≤ (npixOf rmax bmaj dpix).toNat) :
    (∀ l : ℕ, ∀ k : ℤ, xnestVal (npixnestOf rmax bmaj dpix) dpix (l + 1) k
        = xnestVal (npixnestOf rmax bmaj dpix) dpix l k / 2) ∧
    (∀ l : ℕ, ∀ k : ℤ, xnestVal (npixnestOf rmax bmaj dpix) dpix l k
        + xnestVal (npixnestOf rmax bmaj dpix) dpix l
            ((npixnestOf rmax bmaj dpix : ℤ) - 1 - k) = 0) ∧
    ineed0Of rmax bmaj dpix + ineed1Of rmax bmaj dpix = (npixnestOf rmax bmaj dpix : ℤ) ∧
    xnestVal (npixnestOf rmax bmaj dpix) dpix 0 (ineed0Of rmax bmaj dpix)
        + xnestVal (npixnestOf rmax bmaj dpix) dpix 0 (ineed1Of rmax bmaj dpix - 1) = 0 ∧
    xnestVal (npixnestOf rmax bmaj dpix) dpix 0 (ineed1Of rmax bmaj dpix - 1)
        = ((nneedOf rmax bmaj dpix : ℚ) - 1 / 2) * dpix := by
  obtain ⟨M, hM⟩ := two_dvd_npixnest rmax bmaj dpix hnp
  have hhalf : npixnestOf rmax bmaj dpix / 2 = M := by
    rw [hM]
    exact Nat.mul_div_cancel_left M (by norm_num)
  have hsym : ∀ l : ℕ, ∀ k : ℤ, xnestVal (npixnestOf rmax bmaj dpix) dpix l k
      + xnestVal (npixnestOf rmax bmaj dpix) dpix l
          ((npixnestOf rmax bmaj dpix : ℤ) - 1 - k) = 0 := by
    intro l k
    unfold xnestVal
    push_cast
    ring
  have hsum : ineed0Of rmax bmaj dpix + ineed1Of rmax bmaj dpix
      = (npixnestOf rmax bmaj dpix : ℤ) := by
    unfold ineed0Of ineed1Of
    rw [hhalf, hM]
    push_cast
    ring
  refine ⟨?_, hsym, hsum, ?_, ?_⟩
  · intro l k
    unfold xnestVal
    rw [pow_succ]
    ring
  · have := hsym 0 (ineed0Of rmax bmaj dpix)
    have harg : (npixnestOf rmax bmaj dpix : ℤ) - 1 - ineed0Of rmax bmaj dpix
        = ineed1Of rmax bmaj dpix - 1 := by omega
    rwa [harg] at this
  · unfold xnestVal ineed1Of
    rw [hhalf, hM]
    push_cast
    ring

/-- Witness for C6 amended at rmax = 10, bmaj = 0, dpix = 1: the crop
is centered in layer 0 and its upper edge sits at
(n_need - 1/2) * dpix. -/
theorem c6_grid_amended_witness :
    ineed0Of 10 0 1 + ineed1Of 10 0 1 = (npixnestOf 10 0 1 : ℤ) ∧
    xnestVal (npixnestOf 10 0 1) 1 0 (ineed1Of 10 0 1 - 1)
      = ((nneedOf 10 0 1 : ℚ) - 1 / 2) * 1 := by
  have hnp : 2 ≤ (npixOf 10 0 1).toNat := by
    norm_num [npixOf, rneedOf, truncQ]
  exact ⟨(c6_grid_amended 10 0 1 hnp).2.2.1, (c6_grid_amended 10 0 1 hnp).2.2.2.2⟩

/-- C7: for any two adjacent nested-grid layers the coarser layer
(layer l) has pixel pitch exactly 2 times the pitch of the next-finer
layer (layer l+1), and both layers' coordinate axes are symmetric
about the same physical origin 0. -/
theorem c7_adjacent_layers (N : ℕ) (dpix : ℚ) (l : ℕ) (k : ℤ) :
    xnestVal N dpix l (k + 1) - xnestVal N dpix l k
      = 2 * (xnestVal N dpix (l + 1) (k + 1) - xnestVal N dpix (l + 1) k) ∧
    xnestVal N dpix l k + xnestVal N dpix l ((N : ℤ) - 1 - k) = 0 ∧
    xnestVal N dpix (l + 1) k + xnestVal N dpix (l + 1) ((N : ℤ) - 1 - k) = 0 := by
  refine ⟨?_, ?_, ?_⟩
  · unfold xnestVal
    rw [pow_succ]
    ring
  · unfold xnestVal
    push_cast
    ring
  · unfold xnestVal
    push_cast
    ring

/- ------------------------------------------------------------------
   C8 and C9: ChannelFit.fitting (lines 450-564), parameter dispatch.

   The 11 parameters are, in order: Mstar, Rc, cs, h1, h2, pI, Rin,
   offmajor, offminor, offvsys, incl.  Every X_range argument has a
   default, so a range is present for every parameter on every call;
   X_fixed is None (here: none) when the parameter is free.  Line 495
   tests whether any parameter is free; if none is, lines 549-553 set
   popt = plow = pmid = phigh = p_fixed without ever calling the
   ensemble sampler.  Otherwise lines 496-548 log10-transform the
   first two (fixed) entries, select prior bounds only for the rows
   where p_fixed is None (lines 529-533), call emcee_corner, and
   scatter each sampler row back into the None slots (get_p, lines
   540-548), applying 10** to the first two entries.  The base-10
   logarithm and its inverse are function parameters, and the sampler
   output is an oracle giving four rows (optimum and three
   quantiles).  Nothing in this code path raises an error, which the
   model records by always returning Except.ok; the sampled flag
   records whether emcee_corner was invoked.
   ------------------------------------------------------------------ -/

/-- Result of the parameter dispatch of fitting: whether the sampler
was invoked, the prior bounds handed to it (rows of free parameters
only), and the four reconstructed full parameter vectors. -/
structure FitOutcome where
  sampled : Bool
  plim : List (ℚ × ℚ)
  popt : Fin 11 → ℚ
  plow : Fin 11 → ℚ
  pmid : Fin 11 → ℚ
  phigh : Fin 11 → ℚ

/-- Lines 529-532: the prior range of parameter i, log10-transformed
for the first two (Mstar, Rc). -/
def transRange (log10 : ℚ → ℚ) (i : Fin 11) (r : ℚ × ℚ) : ℚ × ℚ :=
  if i.val < 2 then (log10 r.1, log10 r.2) else r

/-- Indices of the free parameters (p_fixed == None), in order. -/
def freeIdx (pf : Fin 11 → Option ℚ) : List (Fin 11) :=
  (List.finRange 11).filter (fun i => (pf i).isNone)

/-- get_p of lines 540-544 combined with the log10 transform of lines
496-497: fixed entries keep their values (the first two go through
log10 then 10**), free entries take the sampler row value (the first
two through 10**, the sampler working in log space for them). -/
def getP (pf : Fin 11 → Option ℚ) (log10 pow10 : ℚ → ℚ) (row : Fin 11 → ℚ)
    (i : Fin 11) : ℚ :=
  let q := match pf i with
           | some v => if i.val < 2 then log10 v else v
           | none => row i
  if i.val < 2 then pow10 q else q

/-- Parameter dispatch of fitting (lines 477-553).  mcmc is the
sampler oracle: row 0 the optimum, rows 1-3 the 16th, 50th and 84th
percentiles of the free parameters (scattered into the free slots).
No path raises, so the result is always Except.ok. -/
def fittingRun (pf : Fin 11 → Option ℚ) (pranges : Fin 11 → ℚ × ℚ)
    (mcmc : Fin 4 → Fin 11 → ℚ) (log10 pow10 : ℚ → ℚ) :
    Except String FitOutcome :=
  if h : ∀ i, (pf i).isSome then
    let p := fun i => (pf i).get (h i)
    Except.ok ⟨false, [], p, p, p, p⟩
  else
    let plim := (freeIdx pf).map (fun i => transRange log10 i (pranges i))
    Except.ok ⟨true, plim,
      getP pf log10 pow10 (mcmc 0),
      getP pf log10 pow10 (mcmc 1),
      getP pf log10 pow10 (mcmc 2),
      getP pf log10 pow10 (mcmc 3)⟩

/-- C8: when every one of the 11 parameters has a fixed value, the
ensemble sampler is never invoked (sampled = false, no prior bounds
are built) and the optimum and all three quantile vectors equal the
fixed parameter vector. -/
theorem c8_all_fixed_no_sampling (pf : Fin 11 → Option ℚ)
    (pranges : Fin 11 → ℚ × ℚ) (mcmc : Fin 4 → Fin 11 → ℚ) (log10 pow10 : ℚ → ℚ)
    (h : ∀ i, (pf i).isSome) :
    fittingRun pf pranges mcmc log10 pow10 =
      Except.ok ⟨false, [], fun i => (pf i).get (h i), fun i => (pf i).get (h i),
        fun i => (pf i).get (h i), fun i => (pf i).get (h i)⟩ := by
  unfold fittingRun
  rw [dif_pos h]

/-- All-fixed parameter vector for the C8 witness. -/
def pfC8 : Fin 11 → Option ℚ := fun i => some ((i : ℕ) : ℚ)

/-- Witness for C8: with every parameter fixed to its index value the
sampler flag is false, the prior-bound list is empty and all four
output vectors are the fixed vector. -/
theorem c8_all_fixed_no_sampling_witness :
    fittingRun pfC8 (fun _ => (0, 1)) (fun _ _ => 99) (fun q => q) (fun q => q) =
      Except.ok ⟨false, [], fun i => (pfC8 i).get (by simp [pfC8]),
        fun i => (pfC8 i).get (by simp [pfC8]), fun i => (pfC8 i).get (by simp [pfC8]),
        fun i => (pfC8 i).get (by simp [pfC8])⟩ :=
  c8_all_fixed_no_sampling pfC8 (fun _ => (0, 1)) (fun _ _ => 99) (fun q => q) (fun q => q)
    (fun i => by simp [pfC8])

/-- Fixed-and-ranged configuration for the C9 counterexample: every
parameter carries a fixed value (Mstar fixed to 5) AND, as on every
call of fitting, a prior range (the defaults of lines 450-460 all
exist), so Mstar is given both a fixed value and a free range. -/
def pfC9 : Fin 11 → Option ℚ := fun i => if i.val = 0 then some 5 else some 1

/-- C9 counterexample: fitting called with both Mstar_fixed = 5 and an
Mstar range present does not fail: it returns normally (Except.ok),
performs no sampling, hands no prior bounds to the sampler, and its
optimum silently carries the fixed value 5 — the range is silently
ignored rather than reported as an error. -/
theorem c9_no_error_counterexample :
    (fittingRun pfC9 (fun _ => (1 / 100, 10)) (fun _ _ => 0) (fun q => q) (fun q => q)).map
        (fun o => (o.sampled, o.plim, o.popt 0)) =
      Except.ok (false, ([] : List (ℚ × ℚ)), (5 : ℚ)) := by
  rfl

/-- C9 amended: a parameter given both a fixed value and a prior
range is accepted without any error — fittingRun always returns
Except.ok — and the parameter is silently treated as fixed: it is not
a free index, so its range never reaches the sampler prior bounds. -/
theorem c9_amended_silent_fixed (pf : Fin 11 → Option ℚ) (pranges : Fin 11 → ℚ × ℚ)
    (mcmc : Fin 4 → Fin 11 → ℚ) (log10 pow10 : ℚ → ℚ) (i : Fin 11) (v : ℚ)
    (hi : pf i = some v) :
    (∃ out, fittingRun pf pranges mcmc log10 pow10 = Except.ok out) ∧ i ∉ freeIdx pf := by
  constructor
  · unfold fittingRun
    split
    · exact ⟨_, rfl⟩
    · exact ⟨_, rfl⟩
  · intro hmem
    have := (List.mem_filter.mp hmem).2
    rw [hi] at this
    simp at this

/-- Witness for C9 amended: with every parameter fixed to 3 (ranges
present as always), parameter 0 is not free and the run ends in
Except.ok. -/
theorem c9_amended_silent_fixed_witness :
    (∃ out, fittingRun (fun _ => some 3) (fun _ => (0, 1)) (fun _ _ => 0)
        (fun q => q) (fun q => q) = Except.ok out) ∧
      (0 : Fin 11) ∉ freeIdx (fun _ => some 3) :=
  c9_amended_silent_fixed (fun _ => some 3) (fun _ => (0, 1)) (fun _ _ => 0)
    (fun q => q) (fun q => q) 0 3 rfl

/- ------------------------------------------------------------------
   C10: ChannelFit.get_Iout (lines 361-377) as a state transformer.

   The mutable object state read by get_Iout is collected in CFState;
   arrays over grid cells are cell-indexed functions, with none for a
   NaN cell.  Every operation in the body allocates a fresh value: in
   particular line 366 computes vlos = vlos_in * np.sqrt(Mstar) into
   a NEW array (the source comment itself warns that *= would
   overwrite self.vlos), and the pyramid fold of lines 373-376 writes
   only into the local array Iout, here a pure rearrangement passed
   as the foldcrop parameter.  The only possible state change would
   be an assignment to a self attribute or an in-place operation on
   one, and the body contains none, so the transformer returns the
   state unchanged.
   ------------------------------------------------------------------ -/

/-- Object state read by get_Iout: the four cached surface velocity
arrays self.vlos and corrected-coordinate arrays self.xdisk (an
absent surface is the outer none, a NaN cell the inner none), the
line profile table with its length and step, the channel width, the
fitted channel velocities and the major-axis coordinate grid. -/
structure CFState where
  vlos : List (Option (ℕ → Option ℚ))
  xdisk : List (Option (ℕ → Option ℚ))
  prof : List ℚ
  prof_n : ℕ
  prof_d : ℚ
  dv : ℚ
  v_valid : List ℚ
  Ynest : ℕ → ℚ

/-- Lines 368-369: index into the profile table — iv = v / dv /
prof_d + prof_n // 2 + 0.5, truncated toward zero (astype int) and
clipped to [0, prof_n]. -/
def profLookup (s : CFState) (vq : ℚ) : ℚ :=
  let iv : ℤ := truncQ (vq / s.dv / s.prof_d + ((s.prof_n / 2 : ℕ) : ℚ) + 1 / 2)
  s.prof.getD (min (max iv 0) (s.prof_n : ℤ)).toNat 0

/-- One cell of one surface's contribution to the channel at velocity
vch (lines 366-372): NaN velocity or radius cells contribute 0
(np.nan_to_num), the profile value is looked up at the velocity
offset vch - vlos * sqrt(Mstar) - offvsys, and for a nonzero
brightness index the radial power-law factor (a function parameter
powR applied to the disk radius) multiplies it. -/
def getIoutCell (sqrtQ : ℚ → ℚ) (powR : ℚ → ℚ → ℚ) (s : CFState)
    (sqrtM pI offvsys vch : ℚ) (vlosA xA : ℕ → Option ℚ) (c : ℕ) : ℚ :=
  match vlosA c with
  | none => 0
  | some vl =>
    let p := profLookup s (vch - vl * sqrtM - offvsys)
    if pI = 0 then p
    else
      match xA c with
      | none => 0
      | some x => p * powR (sqrtQ (x * x + s.Ynest c * s.Ynest c)) (-pI)

/-- get_Iout as a state transformer (lines 361-377): sums the up-to-4
surface contributions channel by channel starting from the zero cube,
then applies the pyramid fold and crop (lines 373-376, a pure
function of the local cube, passed as foldcrop) and returns the
result together with the object state, which no statement of the
body assigns to. -/
def get_IoutS (sqrtQ : ℚ → ℚ) (powR : ℚ → ℚ → ℚ)
    (foldcrop : List (ℕ → ℚ) → List (ℕ → ℚ)) (s : CFState)
    (Mstar pI offvsys : ℚ) : CFState × List (ℕ → ℚ) :=
  let sqrtM := sqrtQ Mstar
  let base : List (ℕ → ℚ) := s.v_valid.map (fun _ => (fun _ => 0))
  let Iout := (s.vlos.zip s.xdisk).foldl (fun acc pr =>
    match pr.1 with
    | none => acc
    | some vlosA =>
      let xA := pr.2.getD (fun _ => none)
      (acc.zip s.v_valid).map
        (fun q => fun c => q.1 c + getIoutCell sqrtQ powR s sqrtM pI offvsys q.2 vlosA xA c))
    base
  (s, foldcrop Iout)

/-- C10: get_Iout leaves the cached velocity arrays self.vlos and the
cached corrected-coordinate arrays self.xdisk (and the whole object
state) unchanged, so a second evaluation with different Mstar, pI and
offvsys parameters reads the same unscaled velocity field and
produces exactly the output it would have produced from the original
state. -/
theorem c10_get_Iout_frame (sqrtQ : ℚ → ℚ) (powR : ℚ → ℚ → ℚ)
    (foldcrop : List (ℕ → ℚ) → List (ℕ → ℚ)) (s : CFState)
    (M1 pI1 o1 M2 pI2 o2 : ℚ) :
    (get_IoutS sqrtQ powR foldcrop s M1 pI1 o1).1.vlos = s.vlos ∧
    (get_IoutS sqrtQ powR foldcrop s M1 pI1 o1).1.xdisk = s.xdisk ∧
    (get_IoutS sqrtQ powR foldcrop s M1 pI1 o1).1 = s ∧
    get_IoutS sqrtQ powR foldcrop ((get_IoutS sqrtQ powR foldcrop s M1 pI1 o1).1) M2 pI2 o2
      = get_IoutS sqrtQ powR foldcrop s M2 pI2 o2 :=
  ⟨rfl, rfl, rfl, rfl⟩
